import Mathlib

/-!
Shallow embedding of the municipal-complaint classification service
(`rf.py`): text sanitization, keyword-rule classification, the statistical
fallback adapter, category validation, the submit pipeline, and the vote
operation on the complaint store.

Python strings are modelled as lists of Unicode code points (`PStr`), so
that lone surrogates — which Python `str` admits but Lean `String` does
not — can be represented faithfully for the sanitizer.
-/

/-- A Python string: a sequence of Unicode code points (each `< 0x110000`;
lone surrogates in `0xD800.​.0xDFFF` are representable, as in CPython). -/
abbrev PStr : Type := List Nat

/-- Embed an ASCII/Unicode Lean string literal as a `PStr`. -/
def pstr (s : String) : PStr := s.data.map Char.toNat

/-- Python-style prefix test on code-point lists. -/
def listStartsWith : List Nat → List Nat → Bool
  | [], _ => true
  | _ :: _, [] => false
  | a :: as, b :: bs => a == b && listStartsWith as bs

/-- Python `needle in haystack` substring test: `needle` occurs contiguously
in `haystack`. -/
def subOccurs (needle : List Nat) : List Nat → Bool
  | [] => listStartsWith needle []
  | b :: bs => listStartsWith needle (b :: bs) || subOccurs needle bs

/-- Python `str.lower()` restricted to ASCII letters (every keyword and
category label in the program is ASCII). -/
def toLowerP (s : PStr) : PStr :=
  s.map (fun c => if 65 ≤ c && c ≤ 90 then c + 32 else c)

/-- Python `str.isspace()` code points (the set `str.strip()` removes). -/
def isPySpace (c : Nat) : Bool :=
  (9 ≤ c && c ≤ 13) || (28 ≤ c && c ≤ 31) || c == 32 || c == 0x85 || c == 0xA0 ||
  c == 0x1680 || (0x2000 ≤ c && c ≤ 0x200A) || c == 0x2028 || c == 0x2029 ||
  c == 0x202F || c == 0x205F || c == 0x3000

/-- Python `str.strip()`: drop leading and trailing whitespace. -/
def pstrip (s : PStr) : PStr :=
  ((s.dropWhile isPySpace).reverse.dropWhile isPySpace).reverse

/-- `CATEGORIES` (rf.py lines 49-52): the fixed, ordered six-label set. -/
def CATEGORIES : List PStr :=
  [pstr "Water Issues", pstr "Road Issues", pstr "Garbage Issues",
   pstr "Electricity", pstr "Drainage Issues", pstr "Other"]

/-- `CATEGORY_KEYWORDS` (rf.py lines 54-61), in the dict's insertion order,
which is the iteration order of the Python `for` loop. -/
def CATEGORY_KEYWORDS : List (PStr × List PStr) :=
  [(pstr "Water Issues",
    [pstr "water", pstr "drinking", pstr "supply", pstr "leak", pstr "pipe",
     pstr "tap", pstr "smell", pstr "taste", pstr "pressure"]),
   (pstr "Road Issues",
    [pstr "road", pstr "pothole", pstr "asphalt", pstr "street", pstr "highway",
     pstr "repair", pstr "damage", pstr "construction"]),
   (pstr "Garbage Issues",
    [pstr "garbage", pstr "trash", pstr "waste", pstr "collection", pstr "dump",
     pstr "bin", pstr "clean", pstr "disposal"]),
   (pstr "Electricity",
    [pstr "electricity", pstr "power", pstr "outage", pstr "blackout", pstr "wire",
     pstr "transformer", pstr "voltage", pstr "flickering"]),
   (pstr "Drainage Issues",
    [pstr "drainage", pstr "sewer", pstr "flood", pstr "waterlogging",
     pstr "blockage", pstr "clog", pstr "overflow"]),
   (pstr "Other",
    [pstr "noise", pstr "loudspeaker", pstr "park", pstr "tree", pstr "animal",
     pstr "stray", pstr "public", pstr "nuisance"])]

/-- The `for category, keywords in CATEGORY_KEYWORDS.items()` loop body of
`manual_category_detection` (rf.py lines 74-78): return the first category
one of whose keywords occurs in `t`, else `None`. -/
def detectLoop (t : PStr) : List (PStr × List PStr) → Option PStr
  | [] => none
  | (category, keywords) :: rest =>
    if keywords.any (fun k => subOccurs k t) then some category
    else detectLoop t rest

/-- `manual_category_detection` (rf.py lines 72-78): lowercase the text, then
first-match scan over `CATEGORY_KEYWORDS`. -/
def manual_category_detection (complaint_text : PStr) : Option PStr :=
  detectLoop (toLowerP complaint_text) CATEGORY_KEYWORDS

/-- `validate_prediction` (rf.py lines 80-81): keep the candidate when it is
in `CATEGORIES`, else substitute `"Other"`. The `complaint_text` argument is
unused by the source as well. -/
def validate_prediction (predicted_category : PStr) (complaint_text : PStr) : PStr :=
  if CATEGORIES.contains predicted_category then predicted_category else pstr "Other"

/-- A JSON-shaped Python value, as obtained from `request.get_json` and
looked up via `data.get("complaint", "")` (rf.py lines 95-96). -/
inductive PyVal : Type where
  | null : PyVal
  | bool : Bool → PyVal
  | int : Int → PyVal
  | str : PStr → PyVal
  | list : List PyVal → PyVal

/-- Code points CPython cannot encode to UTF-8: lone surrogates. -/
def isSurrogate (c : Nat) : Bool := 0xD800 ≤ c && c ≤ 0xDFFF

/-- UTF-8 encoding of one code point with the `"replace"` error handler
(CPython substitutes one `?` byte for each unencodable code point). -/
def utf8EncodeChar (c : Nat) : List Nat :=
  if isSurrogate c then [63]
  else if c < 0x80 then [c]
  else if c < 0x800 then [0xC0 + c / 64, 0x80 + c % 64]
  else if c < 0x10000 then [0xE0 + c / 4096, 0x80 + c / 64 % 64, 0x80 + c % 64]
  else [0xF0 + c / 262144, 0x80 + c / 4096 % 64, 0x80 + c / 64 % 64, 0x80 + c % 64]

/-- `text.encode("utf-8", "replace")`: byte sequence of the string. -/
def utf8EncodeReplace (s : PStr) : List Nat :=
  (s.map utf8EncodeChar).flatten

/-- Strict UTF-8 decoding (`bytes.decode("utf-8")`), as the standard UTF-8
acceptor DFA: `st = none` awaits a lead byte; `st = some (acc, need, lo, hi)`
is mid-sequence with `acc` the bits read so far, `need` continuation bytes
still required, and the next byte constrained to `[lo, hi]` (this encodes
the rejection of overlong forms, surrogates and values above `0x10FFFF`,
as CPython's strict decoder does). Stray continuation bytes, lead bytes
`0xC0`-`0xC1` and `0xF5`-`0xFF`, and truncated sequences are errors. -/
def utf8DecodeSt : Option (Nat × Nat × Nat × Nat) → List Nat → Option PStr
  | none, [] => some []
  | some _, [] => none
  | none, b0 :: bs =>
    if b0 < 0x80 then (utf8DecodeSt none bs).map (fun t => b0 :: t)
    else if b0 < 0xC2 then none
    else if b0 < 0xE0 then utf8DecodeSt (some (b0 - 0xC0, 1, 0x80, 0xBF)) bs
    else if b0 < 0xF0 then
      utf8DecodeSt (some (b0 - 0xE0, 2,
        (if b0 = 0xE0 then 0xA0 else 0x80), (if b0 = 0xED then 0x9F else 0xBF))) bs
    else if b0 < 0xF5 then
      utf8DecodeSt (some (b0 - 0xF0, 3,
        (if b0 = 0xF0 then 0x90 else 0x80), (if b0 = 0xF4 then 0x8F else 0xBF))) bs
    else none
  | some (acc, need, lo, hi), b :: bs =>
    if lo ≤ b ∧ b ≤ hi then
      if need = 1 then (utf8DecodeSt none bs).map (fun t => (acc * 64 + (b - 0x80)) :: t)
      else utf8DecodeSt (some (acc * 64 + (b - 0x80), need - 1, 0x80, 0xBF)) bs
    else none

/-- `bytes.decode("utf-8")` of a whole byte sequence. -/
def utf8Decode (bytes : List Nat) : Option PStr :=
  utf8DecodeSt none bytes

/-- `text.encode("ascii", "ignore").decode("ascii")`: drop every
non-ASCII code point. -/
def asciiIgnore (s : PStr) : PStr := s.filter (fun c => c < 128)

/-- The string branch of `sanitize_text`: the UTF-8 round trip of rf.py
line 68, falling back to the ASCII strip of line 70 when decoding fails. -/
def sanitizeStr (s : PStr) : PStr :=
  match utf8Decode (utf8EncodeReplace s) with
  | some t => t
  | none => asciiIgnore s

/-- `sanitize_text` (rf.py lines 64-70): empty string for non-`str` input,
otherwise the UTF-8 round trip with ASCII fallback. -/
def sanitize_text (text : PyVal) : PStr :=
  match text with
  | .str s => sanitizeStr s
  | _ => []

/-- Pointwise effect of the sanitizer's round trip on a valid code point:
lone surrogates become `?` (63), everything else is unchanged. -/
def replaceSurrogate (c : Nat) : Nat := if isSurrogate c then 63 else c

/-- Lowercase hex digit character code. -/
def hexDigit (n : Nat) : Nat := if n < 10 then 48 + n else 87 + n

/-- Two lowercase hex digit character codes of a byte. -/
def hexByte (c : Nat) : List Nat := [hexDigit (c / 16), hexDigit (c % 16)]

/-- One character of Python `repr` of a string, given the chosen quote
character `q`: escape backslash, the quote, newline, carriage return and
tab, render other control characters as `\xNN`. (CPython also escapes
non-printable code points above `0x7F`; those are kept as-is here — no
claim depends on the exact rendering of such values.) -/
def reprEscapeChar (c : Nat) (q : Nat) : List Nat :=
  if c == 92 then [92, 92]
  else if c == q then [92, q]
  else if c == 10 then [92, 110]
  else if c == 13 then [92, 114]
  else if c == 9 then [92, 116]
  else if c < 32 || c == 127 then [92, 120] ++ hexByte c
  else [c]

mutual

/-- Python `repr` of a JSON-shaped value: `None`, `True`/`False`, decimal
integers, quoted strings (single quotes unless the string contains `'` and
no `"`), and bracketed, comma-separated lists of element `repr`s. -/
def pyRepr : PyVal → PStr
  | .null => pstr "None"
  | .bool b => if b then pstr "True" else pstr "False"
  | .int n => pstr (toString n)
  | .str s =>
    let q : Nat := if s.contains 39 && !(s.contains 34) then 34 else 39
    [q] ++ (s.map (fun c => reprEscapeChar c q)).flatten ++ [q]
  | .list xs => pstr "[" ++ List.intercalate (pstr ", ") (pyReprList xs) ++ pstr "]"

/-- `repr` of each element of a Python list, in order. -/
def pyReprList : List PyVal → List PStr
  | [] => []
  | x :: xs => pyRepr x :: pyReprList xs

end

/-- Python `str()` builtin on a JSON-shaped value: identity on strings,
`repr` on `None`, booleans, integers and lists. -/
def pyStr : PyVal → PStr
  | .str s => s
  | v => pyRepr v

/-- Python `data.get(key, default)` on the parsed JSON object. -/
def dictGet (data : List (PStr × PyVal)) (key : PStr) (default : PyVal) : PyVal :=
  match data.find? (fun p => p.1 == key) with
  | some p => p.2
  | none => default

/-- Python truthiness of an optional string (`if manual_category:`):
`None` and the empty string are falsy. -/
def optStrTruthy : Option PStr → Bool
  | none => false
  | some s => !s.isEmpty

/-- Python `o or d` where `o` is an optional string: `o` when truthy,
else `d`. -/
def pyOrStr (o : Option PStr) (d : PStr) : PStr :=
  if optStrTruthy o then o.getD [] else d

/-- `MODEL_VERSION` (rf.py line 17). -/
def MODEL_VERSION : PStr := pstr "1.2.0"

/-- The process-wide ML globals (rf.py lines 36-47): `model`,
`tfidf_vectorizer` and `label_encoder`, each possibly `None` when its
artifact failed to load. `V` is the (abstract) feature-vector type of
`tfidf_vectorizer.transform`; the loaded objects are assumed truthy, as
sklearn estimators are. -/
structure MLState (V : Type) where
  model : Option (V → Nat)
  tfidf_vectorizer : Option (PStr → V)
  label_encoder : Option (Nat → PStr)

/-- The availability test `model and tfidf_vectorizer and label_encoder`
(rf.py line 108): all three artifacts loaded. -/
def MLState.available {V : Type} (st : MLState V) : Bool :=
  st.model.isSome && st.tfidf_vectorizer.isSome && st.label_encoder.isSome

/-- The document inserted by `submit_complaint` (rf.py lines 116-123),
with the `datetime.utcnow()` timestamp abstracted to a `Nat` supplied by
the caller. -/
structure ComplaintEntry where
  complaint : PStr
  category : PStr
  timestamp : Nat
  votes : Nat
  predictionSource : PStr
  modelVersion : PStr
deriving DecidableEq

/-- Outcome of the `submit_complaint` handler: the 400 validation error,
or the stored entry together with the response's `category` and
`auto_corrected` fields. -/
inductive SubmitResult : Type where
  | error : PStr → Nat → SubmitResult
  | ok : ComplaintEntry → PStr → Bool → SubmitResult
deriving DecidableEq

/-- The normalized text of a submission (rf.py lines 96-99):
`sanitize_text(str(data.get("complaint", "")).strip()).lower()`. -/
def normalizedText (data : List (PStr × PyVal)) : PStr :=
  toLowerP (sanitize_text (.str (pstrip (pyStr (dictGet data (pstr "complaint") (.str []))))))

/-- `submit_complaint` (rf.py lines 92-131), up to the store insert: extract
and normalize the complaint, apply the length floor, then keyword rule /
model-with-validation / degraded fallback, and build the stored entry. -/
def submit_complaint (V : Type) (st : MLState V) (now : Nat)
    (data : List (PStr × PyVal)) : SubmitResult :=
  let raw_complaint : PStr := pstrip (pyStr (dictGet data (pstr "complaint") (.str [])))
  let complaint_text : PStr := toLowerP (sanitize_text (.str raw_complaint))
  if complaint_text.length < 10 then
    .error (pstr "Complaint must be at least 10 characters") 400
  else
    let manual_category := manual_category_detection complaint_text
    let predicted_category :=
      if optStrTruthy manual_category then manual_category.getD []
      else
        match st.model, st.tfidf_vectorizer, st.label_encoder with
        | some mdl, some vec, some enc =>
          let tfidf := vec complaint_text
          let category_index := mdl tfidf
          validate_prediction (enc category_index) complaint_text
        | _, _, _ =>
          pyOrStr (manual_category_detection complaint_text) (pstr "Other")
    let entry : ComplaintEntry :=
      { complaint := complaint_text
        category := predicted_category
        timestamp := now
        votes := 0
        predictionSource := if optStrTruthy manual_category then pstr "manual" else pstr "model"
        modelVersion := MODEL_VERSION }
    .ok entry predicted_category (optStrTruthy manual_category)

/-- The degraded pipeline as the spec describes it ("equivalent to simply
defaulting to Other directly"): no model branch, and the
no-keyword-match case yields `"Other"` without a second keyword pass. -/
def submitDefaultOther (now : Nat) (data : List (PStr × PyVal)) : SubmitResult :=
  let raw_complaint : PStr := pstrip (pyStr (dictGet data (pstr "complaint") (.str [])))
  let complaint_text : PStr := toLowerP (sanitize_text (.str raw_complaint))
  if complaint_text.length < 10 then
    .error (pstr "Complaint must be at least 10 characters") 400
  else
    let manual_category := manual_category_detection complaint_text
    let predicted_category :=
      if optStrTruthy manual_category then manual_category.getD []
      else pstr "Other"
    let entry : ComplaintEntry :=
      { complaint := complaint_text
        category := predicted_category
        timestamp := now
        votes := 0
        predictionSource := if optStrTruthy manual_category then pstr "manual" else pstr "model"
        modelVersion := MODEL_VERSION }
    .ok entry predicted_category (optStrTruthy manual_category)

/-- `submit_complaint` with the sanitizer's string branch applied directly:
the pipeline always hands `sanitize_text` a string (the result of
`str(...).strip()`), so its non-string branch cannot fire. -/
def submitStrSanitized (V : Type) (st : MLState V) (now : Nat)
    (data : List (PStr × PyVal)) : SubmitResult :=
  let raw_complaint : PStr := pstrip (pyStr (dictGet data (pstr "complaint") (.str [])))
  let complaint_text : PStr := toLowerP (sanitizeStr raw_complaint)
  if complaint_text.length < 10 then
    .error (pstr "Complaint must be at least 10 characters") 400
  else
    let manual_category := manual_category_detection complaint_text
    let predicted_category :=
      if optStrTruthy manual_category then manual_category.getD []
      else
        match st.model, st.tfidf_vectorizer, st.label_encoder with
        | some mdl, some vec, some enc =>
          let tfidf := vec complaint_text
          let category_index := mdl tfidf
          validate_prediction (enc category_index) complaint_text
        | _, _, _ =>
          pyOrStr (manual_category_detection complaint_text) (pstr "Other")
    let entry : ComplaintEntry :=
      { complaint := complaint_text
        category := predicted_category
        timestamp := now
        votes := 0
        predictionSource := if optStrTruthy manual_category then pstr "manual" else pstr "model"
        modelVersion := MODEL_VERSION }
    .ok entry predicted_category (optStrTruthy manual_category)

/-- A complaint document in the store, with MongoDB's `ObjectId` abstracted
to a `Nat`. -/
structure StoredComplaint where
  id : Nat
  complaint : PStr
  category : PStr
  timestamp : Nat
  votes : Nat
  predictionSource : PStr
  modelVersion : PStr
deriving DecidableEq

/-- `update_one({"_id": cid}, {"$inc": {"votes": 1}})` (rf.py lines
179-182): increment `votes` of the first document whose id matches, and
return the new store with the modified count. MongoDB `_id` values are
unique, so at most one document matches. -/
def update_one_inc : List StoredComplaint → Nat → List StoredComplaint × Nat
  | [], _ => ([], 0)
  | r :: rs, cid =>
    if r.id == cid then ({ r with votes := r.votes + 1 } :: rs, 1)
    else
      let res := update_one_inc rs cid
      (r :: res.1, res.2)

/-- The `vote` endpoint's store effect and outcome (rf.py lines 179-187):
success exactly when `modified_count == 1`. -/
def vote (store : List StoredComplaint) (complaint_id : Nat) :
    List StoredComplaint × Bool :=
  let result := update_one_inc store complaint_id
  (result.1, result.2 == 1)

/-- `n` sequential `vote` calls on the same id. -/
def voteN : Nat → List StoredComplaint → Nat → List StoredComplaint
  | 0, store, _ => store
  | n + 1, store, cid => voteN n (vote store cid).1 cid

/-- The vote count of the (first, hence unique) document with the given id,
if present. -/
def votesOf (store : List StoredComplaint) (cid : Nat) : Option Nat :=
  (store.find? (fun r => r.id == cid)).map (fun r => r.votes)

/-- Every field of a stored document except `votes`. -/
def StoredComplaint.core (r : StoredComplaint) :
    Nat × PStr × PStr × Nat × PStr × PStr :=
  (r.id, r.complaint, r.category, r.timestamp, r.predictionSource, r.modelVersion)

/-- Whether some keyword of the table entry `p` occurs in the (already
lowercased) text `t`. -/
def catHit (t : PStr) (p : PStr × List PStr) : Bool :=
  p.2.any (fun k => subOccurs k t)

/-- Declarative first-match-wins statement: `c` is the label of an entry of
the keyword table that the lowercased input hits, and every entry listed
before it misses. -/
def firstMatchSpec (t : PStr) (c : PStr) : Prop :=
  ∃ pre entry post, CATEGORY_KEYWORDS = pre ++ entry :: post ∧ entry.1 = c ∧
    catHit (toLowerP t) entry = true ∧ ∀ q ∈ pre, catHit (toLowerP t) q = false

/-- Declarative no-match statement: no keyword of any category occurs in
the lowercased input. -/
def noMatchSpec (t : PStr) : Prop :=
  ∀ q ∈ CATEGORY_KEYWORDS, catHit (toLowerP t) q = false

/-- The closed-set invariant on a submit outcome: a constructed record (and
the reported category) carries one of the six fixed labels. -/
def resultCategoryClosed : SubmitResult → Prop
  | .error _ _ => True
  | .ok e c _ => CATEGORIES.contains e.category = true ∧ CATEGORIES.contains c = true

/-- The prediction-source tag a submission's outcome actually carries:
`"manual"` exactly when the keyword stage matched (truthily), `"model"` in
every other stored record — including the degraded no-model branch. -/
def sourceTagSpec (data : List (PStr × PyVal)) : SubmitResult → Prop
  | .error _ _ => True
  | .ok e _ a =>
    e.predictionSource =
      (if optStrTruthy (manual_category_detection (normalizedText data))
       then pstr "manual" else pstr "model") ∧
    a = optStrTruthy (manual_category_detection (normalizedText data))

/-- The category the pipeline assigns to normalized text `t` (the value
bound to `predicted_category` in rf.py lines 106-114). -/
def predictedCategoryFn (V : Type) (st : MLState V) (t : PStr) : PStr :=
  if optStrTruthy (manual_category_detection t) then (manual_category_detection t).getD []
  else
    match st.model, st.tfidf_vectorizer, st.label_encoder with
    | some mdl, some vec, some enc => validate_prediction (enc (mdl (vec t))) t
    | _, _, _ => pyOrStr (manual_category_detection t) (pstr "Other")

/-- The category assigned by the degraded (spec-simplified) pipeline. -/
def defaultCategoryFn (t : PStr) : PStr :=
  if optStrTruthy (manual_category_detection t) then (manual_category_detection t).getD []
  else pstr "Other"

example : manual_category_detection (pstr "There is a water leak") = some (pstr "Water Issues") := by decide
example : manual_category_detection (pstr "road flooded due to drainage blockage") = some (pstr "Road Issues") := by decide
example : manual_category_detection (pstr "zzzz") = none := by decide
example : validate_prediction (pstr "Electricity") (pstr "x") = pstr "Electricity" := by decide
example : validate_prediction (pstr "Bogus") (pstr "x") = pstr "Other" := by decide

theorem detectLoop_cons (t : PStr) (p : PStr × List PStr)
    (rest : List (PStr × List PStr)) :
    detectLoop t (p :: rest) = if catHit t p then some p.1 else detectLoop t rest := by
  obtain ⟨pc, pk⟩ := p
  rfl

theorem detectLoop_eq_some (t : PStr) (l : List (PStr × List PStr)) (c : PStr) :
    detectLoop t l = some c ↔
      ∃ pre entry post, l = pre ++ entry :: post ∧ entry.1 = c ∧
        catHit t entry = true ∧ ∀ q ∈ pre, catHit t q = false := by
  induction l with
  | nil => simp [detectLoop]
  | cons p rest ih =>
    rw [detectLoop_cons]
    by_cases h : catHit t p = true
    · rw [if_pos h]
      constructor
      · intro hd
        exact ⟨[], p, rest, by simp, Option.some.inj hd, h, by simp⟩
      · rintro ⟨pre, entry, post, heq, hc, hhit, hmiss⟩
        cases pre with
        | nil =>
          simp only [List.nil_append, List.cons.injEq] at heq
          rw [heq.1, hc]
        | cons q qs =>
          simp only [List.cons_append, List.cons.injEq] at heq
          have hqmem : q ∈ q :: qs := List.mem_cons_self q qs
          have : catHit t q = false := hmiss q hqmem
          rw [← heq.1] at this
          simp [this] at h
    · have hob : catHit t p = false := by simpa using h
      rw [if_neg h, ih]
      constructor
      · rintro ⟨pre, entry, post, heq, hc, hhit, hmiss⟩
        refine ⟨p :: pre, entry, post, by simp [heq], hc, hhit, ?_⟩
        intro q hq
        rcases List.mem_cons.mp hq with h1 | h2
        · rw [h1]; exact hob
        · exact hmiss q h2
      · rintro ⟨pre, entry, post, heq, hc, hhit, hmiss⟩
        cases pre with
        | nil =>
          simp only [List.nil_append, List.cons.injEq] at heq
          rw [heq.1] at hob
          simp [hob] at hhit
        | cons q qs =>
          simp only [List.cons_append, List.cons.injEq] at heq
          exact ⟨qs, entry, post, heq.2, hc, hhit,
            fun r hr => hmiss r (List.mem_cons_of_mem q hr)⟩

theorem detectLoop_eq_none (t : PStr) (l : List (PStr × List PStr)) :
    detectLoop t l = none ↔ ∀ q ∈ l, catHit t q = false := by
  induction l with
  | nil => simp [detectLoop]
  | cons p rest ih =>
    rw [detectLoop_cons]
    by_cases h : catHit t p = true
    · rw [if_pos h]
      constructor
      · intro hd; exact absurd hd (by simp)
      · intro hall
        have := hall p (List.mem_cons_self p rest)
        simp [this] at h
    · have hob : catHit t p = false := by simpa using h
      rw [if_neg h, ih]
      constructor
      · intro hall q hq
        rcases List.mem_cons.mp hq with h1 | h2
        · rw [h1]; exact hob
        · exact hall q h2
      · intro hall q hq
        exact hall q (List.mem_cons_of_mem p hq)

theorem detectLoop_mem_keys (t : PStr) (l : List (PStr × List PStr)) (c : PStr)
    (h : detectLoop t l = some c) : c ∈ l.map Prod.fst := by
  induction l with
  | nil => simp [detectLoop] at h
  | cons p rest ih =>
    rw [detectLoop_cons] at h
    by_cases hh : catHit t p = true
    · rw [if_pos hh] at h
      simp [← Option.some.inj h]
    · rw [if_neg hh] at h
      simp [ih h]

theorem keys_nonempty : ∀ c ∈ CATEGORY_KEYWORDS.map Prod.fst, c.isEmpty = false := by
  decide

theorem keys_in_categories :
    ∀ c ∈ CATEGORY_KEYWORDS.map Prod.fst, CATEGORIES.contains c = true := by
  decide

theorem manual_some_nonempty (t c : PStr)
    (h : manual_category_detection t = some c) : c.isEmpty = false :=
  keys_nonempty c (detectLoop_mem_keys (toLowerP t) CATEGORY_KEYWORDS c h)

theorem manual_some_in_categories (t c : PStr)
    (h : manual_category_detection t = some c) : CATEGORIES.contains c = true :=
  keys_in_categories c (detectLoop_mem_keys (toLowerP t) CATEGORY_KEYWORDS c h)

theorem manual_truthy_iff_isSome (t : PStr) :
    optStrTruthy (manual_category_detection t) = (manual_category_detection t).isSome := by
  cases hm : manual_category_detection t with
  | none => rfl
  | some c =>
    simp [optStrTruthy, manual_some_nonempty t c hm]

theorem manual_not_truthy_eq_none (t : PStr)
    (h : optStrTruthy (manual_category_detection t) = false) :
    manual_category_detection t = none := by
  rw [manual_truthy_iff_isSome] at h
  exact Option.not_isSome_iff_eq_none.mp (by simp [h])

theorem validate_prediction_closed (p t : PStr) :
    CATEGORIES.contains (validate_prediction p t) = true := by
  unfold validate_prediction
  split
  · assumption
  · decide

theorem not_surrogate_ranges (c : Nat) (hs : ¬ isSurrogate c = true) :
    c < 55296 ∨ 57343 < c := by
  by_contra hcon
  push_neg at hcon
  exact hs (by simp [isSurrogate]; omega)


theorem utf8DecodeSt_encodeChar (c : Nat) (hc : c < 1114112) (bs : List Nat) :
    utf8DecodeSt none (utf8EncodeChar c ++ bs) =
      (utf8DecodeSt none bs).map (fun t => replaceSurrogate c :: t) := by
  by_cases hs : isSurrogate c = true
  · have he : utf8EncodeChar c = [63] := by
      unfold utf8EncodeChar; rw [if_pos hs]
    have hr : replaceSurrogate c = 63 := by
      unfold replaceSurrogate; rw [if_pos hs]
    rw [he, hr]
    show utf8DecodeSt none (63 :: bs) = _
    simp only [utf8DecodeSt]
    rw [if_pos (show (63 : Nat) < 0x80 by omega)]
  · have hr : replaceSurrogate c = c := by
      unfold replaceSurrogate; rw [if_neg hs]
    have hsn : c < 55296 ∨ 57343 < c := not_surrogate_ranges c hs
    rw [hr]
    rcases Nat.lt_or_ge c 0x80 with h1 | h1
    · have he : utf8EncodeChar c = [c] := by
        unfold utf8EncodeChar; rw [if_neg hs, if_pos h1]
      rw [he]
      show utf8DecodeSt none (c :: bs) = _
      simp only [utf8DecodeSt]
      rw [if_pos h1]
    · rcases Nat.lt_or_ge c 0x800 with h2 | h2
      · have he : utf8EncodeChar c = [0xC0 + c / 64, 0x80 + c % 64] := by
          unfold utf8EncodeChar; rw [if_neg hs, if_neg (by omega), if_pos h2]
        rw [he]
        show utf8DecodeSt none ((0xC0 + c / 64) :: (0x80 + c % 64) :: bs) = _
        simp only [utf8DecodeSt]
        rw [if_neg (show ¬(0xC0 + c / 64 < 0x80) by omega)]
        rw [if_neg (show ¬(0xC0 + c / 64 < 0xC2) by omega)]
        rw [if_pos (show 0xC0 + c / 64 < 0xE0 by omega)]
        rw [if_pos (show 128 ≤ 128 + c % 64 ∧ 128 + c % 64 ≤ 191 by omega)]
        rw [if_pos trivial]
        have hx : (0xC0 + c / 64 - 0xC0) * 64 + (0x80 + c % 64 - 0x80) = c := by omega
        simp only [hx]
      · rcases Nat.lt_or_ge c 0x10000 with h3 | h3
        · have he : utf8EncodeChar c =
              [0xE0 + c / 4096, 0x80 + c / 64 % 64, 0x80 + c % 64] := by
            unfold utf8EncodeChar
            rw [if_neg hs, if_neg (by omega), if_neg (by omega), if_pos h3]
          rw [he]
          show utf8DecodeSt none ((0xE0 + c / 4096) :: (0x80 + c / 64 % 64) ::
            (0x80 + c % 64) :: bs) = _
          simp only [utf8DecodeSt]
          rw [if_neg (show ¬(0xE0 + c / 4096 < 0x80) by omega)]
          rw [if_neg (show ¬(0xE0 + c / 4096 < 0xC2) by omega)]
          rw [if_neg (show ¬(0xE0 + c / 4096 < 0xE0) by omega)]
          rw [if_pos (show 0xE0 + c / 4096 < 0xF0 by omega)]
          rw [if_pos (show (if 224 + c / 4096 = 224 then 160 else 128) ≤ 128 + c / 64 % 64 ∧
                128 + c / 64 % 64 ≤ (if 224 + c / 4096 = 237 then 159 else 191) by
              constructor <;> split <;> omega)]
          rw [if_neg (show ¬(2 = 1) by omega)]
          rw [if_pos (show 128 ≤ 128 + c % 64 ∧ 128 + c % 64 ≤ 191 by omega)]
          rw [if_pos trivial]
          have hx : ((224 + c / 4096 - 224) * 64 + (128 + c / 64 % 64 - 128)) * 64 +
              (128 + c % 64 - 128) = c := by omega
          simp only [hx]
        · have he : utf8EncodeChar c =
              [0xF0 + c / 262144, 0x80 + c / 4096 % 64, 0x80 + c / 64 % 64,
               0x80 + c % 64] := by
            unfold utf8EncodeChar
            rw [if_neg hs, if_neg (by omega), if_neg (by omega), if_neg (by omega)]
          rw [he]
          show utf8DecodeSt none ((0xF0 + c / 262144) :: (0x80 + c / 4096 % 64) ::
            (0x80 + c / 64 % 64) :: (0x80 + c % 64) :: bs) = _
          simp only [utf8DecodeSt]
          rw [if_neg (show ¬(0xF0 + c / 262144 < 0x80) by omega)]
          rw [if_neg (show ¬(0xF0 + c / 262144 < 0xC2) by omega)]
          rw [if_neg (show ¬(0xF0 + c / 262144 < 0xE0) by omega)]
          rw [if_neg (show ¬(0xF0 + c / 262144 < 0xF0) by omega)]
          rw [if_pos (show 0xF0 + c / 262144 < 0xF5 by omega)]
          rw [if_pos (show (if 240 + c / 262144 = 240 then 144 else 128) ≤ 128 + c / 4096 % 64 ∧
                128 + c / 4096 % 64 ≤ (if 240 + c / 262144 = 244 then 143 else 191) by
              constructor <;> split <;> omega)]
          rw [if_neg (show ¬(3 = 1) by omega)]
          rw [if_pos (show 128 ≤ 128 + c / 64 % 64 ∧ 128 + c / 64 % 64 ≤ 191 by omega)]
          rw [if_neg (show ¬(3 - 1 = 1) by omega)]
          rw [if_pos (show 128 ≤ 128 + c % 64 ∧ 128 + c % 64 ≤ 191 by omega)]
          rw [if_pos trivial]
          have hx : (((240 + c / 262144 - 240) * 64 + (128 + c / 4096 % 64 - 128)) * 64 +
              (128 + c / 64 % 64 - 128)) * 64 + (128 + c % 64 - 128) = c := by omega
          simp only [hx]

theorem utf8Decode_encodeReplace (s : PStr) (h : ∀ c ∈ s, c < 1114112) :
    utf8Decode (utf8EncodeReplace s) = some (s.map replaceSurrogate) := by
  induction s with
  | nil => rfl
  | cons c cs ih =>
    have hc : c < 1114112 := h c (List.mem_cons_self c cs)
    have hcs : ∀ x ∈ cs, x < 1114112 := fun x hx => h x (List.mem_cons_of_mem c hx)
    have hsplit : utf8EncodeReplace (c :: cs) = utf8EncodeChar c ++ utf8EncodeReplace cs := by
      simp [utf8EncodeReplace]
    unfold utf8Decode
    rw [hsplit, utf8DecodeSt_encodeChar c hc]
    have : utf8DecodeSt none (utf8EncodeReplace cs) = some (cs.map replaceSurrogate) := ih hcs
    rw [this]
    simp

theorem sanitizeStr_eq_map (s : PStr) (h : ∀ c ∈ s, c < 1114112) :
    sanitizeStr s = s.map replaceSurrogate := by
  unfold sanitizeStr
  rw [utf8Decode_encodeReplace s h]

theorem update_one_inc_count (store : List StoredComplaint) (cid : Nat) :
    (update_one_inc store cid).2 =
      if store.any (fun r => r.id == cid) then 1 else 0 := by
  induction store with
  | nil => rfl
  | cons r rs ih =>
    by_cases h : (r.id == cid) = true
    · simp [update_one_inc, h]
    · have hf : (r.id == cid) = false := by simpa using h
      simp [update_one_inc, hf, ih]

theorem update_one_inc_not_found (store : List StoredComplaint) (cid : Nat)
    (h : store.any (fun r => r.id == cid) = false) :
    (update_one_inc store cid).1 = store := by
  induction store with
  | nil => rfl
  | cons r rs ih =>
    simp only [List.any_cons, Bool.or_eq_false_iff] at h
    simp [update_one_inc, h.1, ih h.2]

theorem update_one_inc_core (store : List StoredComplaint) (cid : Nat) :
    (update_one_inc store cid).1.map StoredComplaint.core =
      store.map StoredComplaint.core := by
  induction store with
  | nil => rfl
  | cons r rs ih =>
    by_cases h : (r.id == cid) = true
    · simp [update_one_inc, h, StoredComplaint.core]
    · have hf : (r.id == cid) = false := by simpa using h
      simp [update_one_inc, hf, ih]

theorem update_one_inc_found (pre : List StoredComplaint) (r : StoredComplaint)
    (post : List StoredComplaint) (cid : Nat)
    (hpre : ∀ q ∈ pre, (q.id == cid) = false) (hr : r.id = cid) :
    (update_one_inc (pre ++ r :: post) cid).1 =
      pre ++ { r with votes := r.votes + 1 } :: post := by
  induction pre with
  | nil => simp [update_one_inc, hr]
  | cons q qs ih =>
    have hq : (q.id == cid) = false := hpre q (List.mem_cons_self q qs)
    have hqs : ∀ p ∈ qs, (p.id == cid) = false :=
      fun p hp => hpre p (List.mem_cons_of_mem q hp)
    simp [update_one_inc, hq, ih hqs]

theorem votesOf_update_one_inc (store : List StoredComplaint) (cid : Nat) :
    votesOf (update_one_inc store cid).1 cid =
      (votesOf store cid).map (fun v => v + 1) := by
  induction store with
  | nil => rfl
  | cons r rs ih =>
    by_cases h : (r.id == cid) = true
    · simp [update_one_inc, votesOf, List.find?, h]
    · have hf : (r.id == cid) = false := by simpa using h
      have h1 : (update_one_inc (r :: rs) cid).1 = r :: (update_one_inc rs cid).1 := by
        simp [update_one_inc, hf]
      have h2 : ∀ l : List StoredComplaint, votesOf (r :: l) cid = votesOf l cid := by
        intro l
        unfold votesOf
        rw [List.find?_cons_of_neg _ (by simp [hf])]
      rw [h1, h2, h2, ih]

theorem votesOf_voteN (n : Nat) (store : List StoredComplaint) (cid : Nat) (v : Nat)
    (h : votesOf store cid = some v) :
    votesOf (voteN n store cid) cid = some (v + n) := by
  induction n generalizing store v with
  | zero => simpa using h
  | succ m ih =>
    show votesOf (voteN m (vote store cid).1 cid) cid = _
    have hstep : votesOf (vote store cid).1 cid = some (v + 1) := by
      show votesOf (update_one_inc store cid).1 cid = _
      rw [votesOf_update_one_inc, h]
      rfl
    rw [ih (vote store cid).1 (v + 1) hstep]
    congr 1
    omega


theorem submit_complaint_eq (V : Type) (st : MLState V) (now : Nat)
    (data : List (PStr × PyVal)) :
    submit_complaint V st now data =
      if (normalizedText data).length < 10 then
        .error (pstr "Complaint must be at least 10 characters") 400
      else
        .ok { complaint := normalizedText data
              category := predictedCategoryFn V st (normalizedText data)
              timestamp := now
              votes := 0
              predictionSource :=
                if optStrTruthy (manual_category_detection (normalizedText data))
                then pstr "manual" else pstr "model"
              modelVersion := MODEL_VERSION }
          (predictedCategoryFn V st (normalizedText data))
          (optStrTruthy (manual_category_detection (normalizedText data))) := rfl

theorem predictedCategoryFn_closed (V : Type) (st : MLState V) (t : PStr) :
    CATEGORIES.contains (predictedCategoryFn V st t) = true := by
  unfold predictedCategoryFn
  split
  · rename_i htr
    cases hm : manual_category_detection t with
    | none => rw [hm] at htr; simp [optStrTruthy] at htr
    | some c =>
      exact manual_some_in_categories t c hm
  · obtain ⟨m, vec, enc⟩ := st
    have hother : ∀ o : Option PStr, (∀ c, o = some c → CATEGORIES.contains c = true) →
        CATEGORIES.contains (pyOrStr o (pstr "Other")) = true := by
      intro o ho
      unfold pyOrStr
      split
      · rename_i htr
        cases o with
        | none => simp [optStrTruthy] at htr
        | some c => exact ho c rfl
      · decide
    cases m with
    | none =>
      exact hother (manual_category_detection t) (fun c hc => manual_some_in_categories t c hc)
    | some mdl =>
      cases vec with
      | none =>
        exact hother (manual_category_detection t) (fun c hc => manual_some_in_categories t c hc)
      | some v =>
        cases enc with
        | none =>
          exact hother (manual_category_detection t) (fun c hc => manual_some_in_categories t c hc)
        | some e => exact validate_prediction_closed (e (mdl (v t))) t

theorem predictedCategoryFn_degraded (V : Type) (st : MLState V) (t : PStr)
    (hav : st.available = false) (hm : optStrTruthy (manual_category_detection t) = false) :
    predictedCategoryFn V st t = pstr "Other" := by
  unfold predictedCategoryFn
  rw [if_neg (by simp [hm])]
  have hnone : manual_category_detection t = none := manual_not_truthy_eq_none t hm
  obtain ⟨m, vec, enc⟩ := st
  have hor : pyOrStr (manual_category_detection t) (pstr "Other") = pstr "Other" := by
    rw [hnone]; rfl
  cases m with
  | none => exact hor
  | some mdl =>
    cases vec with
    | none => exact hor
    | some v =>
      cases enc with
      | none => exact hor
      | some e => simp [MLState.available] at hav


theorem submitDefaultOther_eq (now : Nat) (data : List (PStr × PyVal)) :
    submitDefaultOther now data =
      if (normalizedText data).length < 10 then
        .error (pstr "Complaint must be at least 10 characters") 400
      else
        .ok { complaint := normalizedText data
              category := defaultCategoryFn (normalizedText data)
              timestamp := now
              votes := 0
              predictionSource :=
                if optStrTruthy (manual_category_detection (normalizedText data))
                then pstr "manual" else pstr "model"
              modelVersion := MODEL_VERSION }
          (defaultCategoryFn (normalizedText data))
          (optStrTruthy (manual_category_detection (normalizedText data))) := rfl

theorem predictedCategoryFn_eq_default (V : Type) (st : MLState V) (t : PStr)
    (hav : st.available = false) :
    predictedCategoryFn V st t = defaultCategoryFn t := by
  by_cases htr : optStrTruthy (manual_category_detection t) = true
  · unfold predictedCategoryFn defaultCategoryFn
    rw [if_pos htr, if_pos htr]
  · have hf : optStrTruthy (manual_category_detection t) = false := by simpa using htr
    rw [predictedCategoryFn_degraded V st t hav hf]
    unfold defaultCategoryFn
    rw [if_neg htr]

/-- C1: For every input, the Keyword Classifier returns `some c` exactly when
`c` is the first category in the fixed enumeration order (Water Issues, Road
Issues, Garbage Issues, Electricity, Drainage Issues, Other) one of whose
keywords occurs as a substring of the lowercased input — so on an input
matching keywords of two distinct categories the earlier category wins,
regardless of keyword position or hit counts — and it returns `none` exactly
when no keyword of any category occurs. -/
theorem C1_keyword_first_match_wins (t c : PStr) :
    (manual_category_detection t = some c ↔ firstMatchSpec t c) ∧
    (manual_category_detection t = none ↔ noMatchSpec t) := by
  constructor
  · unfold manual_category_detection firstMatchSpec
    exact detectLoop_eq_some (toLowerP t) CATEGORY_KEYWORDS c
  · unfold manual_category_detection noMatchSpec
    exact detectLoop_eq_none (toLowerP t) CATEGORY_KEYWORDS

theorem C1_keyword_first_match_wins_witness :
    firstMatchSpec (pstr "road flooded due to drainage blockage") (pstr "Road Issues") ∧
    noMatchSpec (pstr "nothing relevant here at all") :=
  ⟨((C1_keyword_first_match_wins (pstr "road flooded due to drainage blockage")
      (pstr "Road Issues")).1).mp (by decide),
   ((C1_keyword_first_match_wins (pstr "nothing relevant here at all") []).2).mp (by decide)⟩

/-- C2: in every branch of the pipeline (keyword match, model prediction
routed through the validator, and model-unavailable fallback) the
constructed record's category — and the reported category — is a member of
the fixed six-label set. -/
theorem C2_category_always_closed (V : Type) (st : MLState V) (now : Nat)
    (data : List (PStr × PyVal)) :
    resultCategoryClosed (submit_complaint V st now data) := by
  rw [submit_complaint_eq]
  split
  · trivial
  · exact ⟨predictedCategoryFn_closed V st (normalizedText data),
      predictedCategoryFn_closed V st (normalizedText data)⟩

/-- C3 counterexample: with all three model artifacts unavailable and an
input matching no keyword, the pipeline still stores
`prediction_source = "model"`, although no statistical prediction was used —
refuting that the tag is `"model"` only when the statistical fallback
actually produced the category. -/
theorem C3_counterexample_degraded_tag_is_model :
    MLState.available
      ({ model := none, tfidf_vectorizer := none, label_encoder := none } : MLState Unit) = false ∧
    submit_complaint Unit { model := none, tfidf_vectorizer := none, label_encoder := none } 0
        [(pstr "complaint", .str (pstr "zzzzzzzzzzzz"))] =
      .ok { complaint := pstr "zzzzzzzzzzzz", category := pstr "Other",
            timestamp := 0, votes := 0, predictionSource := pstr "model",
            modelVersion := MODEL_VERSION } (pstr "Other") false :=
  ⟨rfl, rfl⟩

/-- C3 amended: the stored predictionSource tag is `"manual"` exactly when
the keyword rule stage matched (truthily), and `"model"` in every other
stored record — including the degraded branch where the adapter is
unavailable and no keyword matched, which also stores `"model"` although no
model prediction was used. -/
theorem C3_amended_source_tag (V : Type) (st : MLState V) (now : Nat)
    (data : List (PStr × PyVal)) :
    sourceTagSpec data (submit_complaint V st now data) := by
  rw [submit_complaint_eq]
  split
  · trivial
  · exact ⟨rfl, rfl⟩

/-- C4: a submission whose normalized text has fewer than 10 characters is
rejected with the caller-visible 400 validation error, the outcome being
independent of the model state and timestamp (so no classifier stage or
record construction can influence it); a submission of normalized length at
least 10 never takes the length rejection. -/
theorem C4_length_floor (V : Type) (st st2 : MLState V) (now now2 : Nat)
    (data : List (PStr × PyVal)) :
    ((normalizedText data).length < 10 →
      submit_complaint V st now data =
        .error (pstr "Complaint must be at least 10 characters") 400 ∧
      submit_complaint V st now data = submit_complaint V st2 now2 data) ∧
    (10 ≤ (normalizedText data).length →
      ∃ e c a, submit_complaint V st now data = .ok e c a) := by
  constructor
  · intro h
    constructor
    · rw [submit_complaint_eq, if_pos h]
    · rw [submit_complaint_eq, submit_complaint_eq, if_pos h, if_pos h]
  · intro h
    rw [submit_complaint_eq, if_neg (by omega)]
    exact ⟨_, _, _, rfl⟩

theorem C4_length_floor_witness :
    submit_complaint Unit { model := none, tfidf_vectorizer := none, label_encoder := none } 0
        [(pstr "complaint", .str (pstr "xyz"))] =
      .error (pstr "Complaint must be at least 10 characters") 400 ∧
    ∃ e c a,
      submit_complaint Unit { model := none, tfidf_vectorizer := none, label_encoder := none } 0
          [(pstr "complaint", .str (pstr "water leaking everywhere"))] = .ok e c a :=
  ⟨((C4_length_floor Unit { model := none, tfidf_vectorizer := none, label_encoder := none }
      { model := none, tfidf_vectorizer := none, label_encoder := none } 0 0
      [(pstr "complaint", .str (pstr "xyz"))]).1 (by decide)).1,
   (C4_length_floor Unit { model := none, tfidf_vectorizer := none, label_encoder := none }
      { model := none, tfidf_vectorizer := none, label_encoder := none } 0 0
      [(pstr "complaint", .str (pstr "water leaking everywhere"))]).2 (by decide)⟩

/-- C5: when the statistical model artifacts are unavailable, the pipeline is
observationally equal to the spec's simplified program that defaults
unmatched text to "Other" directly — the second keyword pass in the degraded
branch is a no-op — and any stored outcome with no keyword match carries
exactly the category "Other". -/
theorem C5_degraded_equals_default_other (V : Type) (st : MLState V) (now : Nat)
    (data : List (PStr × PyVal)) (hav : st.available = false) :
    submit_complaint V st now data = submitDefaultOther now data ∧
    (manual_category_detection (normalizedText data) = none →
      ∀ e c a, submit_complaint V st now data = .ok e c a →
        e.category = pstr "Other" ∧ c = pstr "Other") := by
  have hmain : submit_complaint V st now data = submitDefaultOther now data := by
    rw [submit_complaint_eq, submitDefaultOther_eq,
        predictedCategoryFn_eq_default V st (normalizedText data) hav]
  refine ⟨hmain, ?_⟩
  intro hm e c a hok
  rw [hmain, submitDefaultOther_eq] at hok
  by_cases hlen : (normalizedText data).length < 10
  · rw [if_pos hlen] at hok
    exact absurd hok (by intro h; cases h)
  · rw [if_neg hlen] at hok
    have hcat : defaultCategoryFn (normalizedText data) = pstr "Other" := by
      unfold defaultCategoryFn
      rw [hm]
      rfl
    injection hok with h1 h2 h3
    constructor
    · rw [← h1, hcat]
    · rw [← h2, hcat]

theorem C5_degraded_equals_default_other_witness :
    submit_complaint Unit { model := none, tfidf_vectorizer := none, label_encoder := none } 0
        [(pstr "complaint", .str (pstr "zzzzzzzzzzzzz"))] =
      submitDefaultOther 0 [(pstr "complaint", .str (pstr "zzzzzzzzzzzzz"))] ∧
    ({ complaint := pstr "zzzzzzzzzzzzz", category := pstr "Other", timestamp := 0,
       votes := 0, predictionSource := pstr "model",
       modelVersion := MODEL_VERSION } : ComplaintEntry).category = pstr "Other" :=
  ⟨(C5_degraded_equals_default_other Unit
      { model := none, tfidf_vectorizer := none, label_encoder := none } 0
      [(pstr "complaint", .str (pstr "zzzzzzzzzzzzz"))] (by decide)).1,
   ((C5_degraded_equals_default_other Unit
      { model := none, tfidf_vectorizer := none, label_encoder := none } 0
      [(pstr "complaint", .str (pstr "zzzzzzzzzzzzz"))] (by decide)).2 (by decide)
      { complaint := pstr "zzzzzzzzzzzzz", category := pstr "Other", timestamp := 0,
        votes := 0, predictionSource := pstr "model", modelVersion := MODEL_VERSION }
      (pstr "Other") false (by decide)).1⟩

/-- C6: a vote succeeds exactly when some record carries the requested id; on
a miss the store is unchanged; no field other than a vote count is ever
changed; on a hit exactly the first record with that id has its vote count
incremented by 1 and every other record is untouched; and n sequential votes
on a present id add exactly n to its count. -/
theorem C6_vote_spec (store : List StoredComplaint) (cid : Nat) :
    ((vote store cid).2 = store.any (fun r => r.id == cid)) ∧
    (store.any (fun r => r.id == cid) = false → (vote store cid).1 = store) ∧
    ((vote store cid).1.map StoredComplaint.core = store.map StoredComplaint.core) ∧
    (∀ pre r post, store = pre ++ r :: post → (∀ q ∈ pre, (q.id == cid) = false) →
      r.id = cid →
      (vote store cid).1 = pre ++ { r with votes := r.votes + 1 } :: post) ∧
    (∀ n v, votesOf store cid = some v →
      votesOf (voteN n store cid) cid = some (v + n)) := by
  refine ⟨?_, ?_, ?_, ?_, ?_⟩
  · show ((update_one_inc store cid).2 == 1) = _
    rw [update_one_inc_count]
    by_cases h : store.any (fun r => r.id == cid) = true
    · rw [if_pos h, h]
      rfl
    · have hf : store.any (fun r => r.id == cid) = false := by simpa using h
      rw [if_neg (by simp [hf]), hf]
      rfl
  · intro h
    show (update_one_inc store cid).1 = store
    exact update_one_inc_not_found store cid h
  · show (update_one_inc store cid).1.map StoredComplaint.core = _
    exact update_one_inc_core store cid
  · intro pre r post heq hpre hr
    show (update_one_inc store cid).1 = _
    rw [heq]
    exact update_one_inc_found pre r post cid hpre hr
  · intro n v h
    exact votesOf_voteN n store cid v h

theorem C6_vote_spec_witness :
    votesOf
      (voteN 3
        [{ id := 5, complaint := pstr "road is broken badly",
           category := pstr "Road Issues", timestamp := 0, votes := 2,
           predictionSource := pstr "manual", modelVersion := MODEL_VERSION }] 5) 5 =
      some (2 + 3) :=
  (C6_vote_spec
    [{ id := 5, complaint := pstr "road is broken badly",
       category := pstr "Road Issues", timestamp := 0, votes := 2,
       predictionSource := pstr "manual", modelVersion := MODEL_VERSION }] 5).2.2.2.2
    3 2 (by decide)

/-- C7: the sanitizer is total: any non-string value yields the empty string,
and any string of valid Unicode code points yields exactly its UTF-8 round
trip, in which every lone surrogate is replaced by `?` and every other code
point is preserved (in particular the ASCII fallback never fires and no
failure can escape). -/
theorem C7_sanitize_total (v : PyVal) :
    ((∀ s, v ≠ .str s) → sanitize_text v = []) ∧
    (∀ s, v = .str s → (∀ c ∈ s, c < 1114112) →
      sanitize_text v = s.map replaceSurrogate) := by
  constructor
  · intro h
    cases v with
    | str s => exact absurd rfl (h s)
    | null => rfl
    | bool b => rfl
    | int n => rfl
    | list xs => rfl
  · intro s hv hval
    subst hv
    show sanitizeStr s = _
    exact sanitizeStr_eq_map s hval

theorem C7_sanitize_total_witness :
    sanitize_text (.int 7) = [] ∧
    sanitize_text (.str [104, 55296, 105]) = [104, 55296, 105].map replaceSurrogate :=
  ⟨(C7_sanitize_total (.int 7)).1 (by intro s h; cases h),
   (C7_sanitize_total (.str [104, 55296, 105])).2 [104, 55296, 105] rfl (by decide)⟩

/-- C8: the Category Validator returns any member of the fixed six-category
set unchanged, returns "Other" for any non-member, and ignores the complaint
text entirely (it is a pure function of the candidate). -/
theorem C8_validate_member_or_default (p t u : PStr) :
    (p ∈ CATEGORIES → validate_prediction p t = p) ∧
    (p ∉ CATEGORIES → validate_prediction p t = pstr "Other") ∧
    validate_prediction p t = validate_prediction p u := by
  refine ⟨?_, ?_, rfl⟩
  · intro h
    unfold validate_prediction
    rw [if_pos (List.elem_eq_true_of_mem h)]
  · intro h
    unfold validate_prediction
    rw [if_neg (fun hc => h (List.mem_of_elem_eq_true hc))]

theorem C8_validate_member_or_default_witness :
    validate_prediction (pstr "Electricity") (pstr "x") = pstr "Electricity" ∧
    validate_prediction (pstr "Bogus") (pstr "x") = pstr "Other" :=
  ⟨(C8_validate_member_or_default (pstr "Electricity") (pstr "x") (pstr "x")).1 (by decide),
   (C8_validate_member_or_default (pstr "Bogus") (pstr "x") (pstr "x")).2.1 (by decide)⟩

/-- C9: the Category Validator is idempotent: validating an already validated
candidate changes nothing, for any complaint-text arguments. -/
theorem C9_validate_idempotent (p t u : PStr) :
    validate_prediction (validate_prediction p t) u = validate_prediction p t := by
  by_cases h : CATEGORIES.contains p = true
  · have h1 : validate_prediction p t = p := by
      unfold validate_prediction; rw [if_pos h]
    rw [h1]
    unfold validate_prediction; rw [if_pos h]
  · have h1 : validate_prediction p t = pstr "Other" := by
      unfold validate_prediction; rw [if_neg h]
    rw [h1]
    unfold validate_prediction; rw [if_pos (by decide)]

/-- C10: the submit path coerces the extracted payload value to its string
representation and strips it before sanitization, so the sanitizer always
receives a string — its non-string branch is unreachable from this path —
and a non-string payload is never rejected for its type but processed
exactly as its textual representation. -/
theorem C10_submit_coerces_payload (V : Type) (st : MLState V) (now : Nat)
    (data : List (PStr × PyVal)) (v : PyVal) :
    submit_complaint V st now data = submitStrSanitized V st now data ∧
    sanitize_text (.str (pstrip (pyStr v))) = sanitizeStr (pstrip (pyStr v)) ∧
    submit_complaint V st now [(pstr "complaint", v)] =
      submit_complaint V st now [(pstr "complaint", .str (pyStr v))] :=
  ⟨rfl, rfl, rfl⟩
